import Mathlib

/-!
Verification of the voice-biometric core of a CRM/telephony dashboard.

The capture session controller is embedded from
`src/web/src/app/api/../components/providers.tsx` (the `useAudioCapture`
hook).  The verifier and profile store live in `src/lib/voice.ts` and
`src/lib/audio/voiceprint.ts`, which are not among the provided sources;
where a definition had to be modelled from the specification instead of
the source, its doc comment says so explicitly.
-/

/-- Audio sample as delivered by the capture device.  A JavaScript number
in an audio buffer is either a finite value (modelled exactly as a
rational) or one of the non-finite IEEE values NaN / ±Infinity. -/
inductive Sample where
  | val (q : ℚ)
  | nan
  | inf (negative : Bool)
deriving DecidableEq, Repr

/-- A sample is finite when it is an ordinary numeric value. -/
def Sample.isFinite : Sample → Bool
  | .val _ => true
  | _ => false

/-- One chunk of samples, as delivered by one `onaudioprocess` callback. -/
abbrev Chunk := List Sample

/-- State of the `useAudioCapture` hook: the three device refs
(`mediaStreamRef`, `processorRef`, `audioContextRef`, modelled as "held"
booleans), the `isRecording` flag and the accumulated `framesRef` buffer. -/
structure CaptureState where
  mediaStream : Bool
  processor : Bool
  audioContext : Bool
  isRecording : Bool
  frames : List Chunk
deriving DecidableEq, Repr

/-- Initial hook state: all refs null, not recording, empty buffer. -/
def initCapture : CaptureState :=
  { mediaStream := false
    processor := false
    audioContext := false
    isRecording := false
    frames := [] }

/-- Outcome of `start()`: it either starts a session, returns early
because a session is already recording, or propagates the rejection of
`navigator.mediaDevices.getUserMedia`. -/
inductive StartResult where
  | started
  | ignoredAlreadyRecording
  | deviceUnavailable
deriving DecidableEq, Repr

/-- A `start()` call fails (throws) only when device access is denied;
the early return on `isRecording` is a plain `return`, not an error. -/
def StartResult.isError : StartResult → Bool
  | .deviceUnavailable => true
  | _ => false

/-- Outcome of `finish()`: `null` when no session is recording, `null`
when the audio context ref is unexpectedly absent (after running `stop`),
or the payload whose `raw` field is the assembled waveform.  The source
also applies `computeVoicePrint` to that waveform; the application is
recorded by carrying the waveform it was applied to. -/
inductive FinishResult where
  | nullNotRecording
  | nullNoContext
  | finished (waveform : List Sample)
deriving DecidableEq, Repr

/-- A `finish()` call never throws in the source; returning `null` is a
plain return value.  No constructor is an error. -/
def FinishResult.isError : FinishResult → Bool
  | _ => false

/-- Embedding of `stop` from `useAudioCapture`: disconnect and null the
processor, stop the media tracks, close the audio context, clear the
refs and reset `isRecording`.  The source does not touch `framesRef`. -/
def stop (s : CaptureState) : CaptureState :=
  { s with
      processor := false
      mediaStream := false
      audioContext := false
      isRecording := false }

/-- Embedding of `start` from `useAudioCapture`.  If a session is already
recording it returns immediately with no effect; otherwise `getUserMedia`
either rejects (state unchanged) or grants the device, in which case the
refs are set, `framesRef` is reset to `[]` and recording begins. -/
def start (s : CaptureState) (granted : Bool) : CaptureState × StartResult :=
  if s.isRecording then (s, .ignoredAlreadyRecording)
  else if granted then
    ({ mediaStream := true
       processor := true
       audioContext := true
       isRecording := true
       frames := [] }, .started)
  else (s, .deviceUnavailable)

/-- Embedding of the `processor.onaudioprocess` handler: it copies the
delivered channel data and pushes it onto `framesRef` unconditionally.
The handler can only fire while the processor node is connected, i.e.
while recording; outside a session no chunk is delivered. -/
def pushChunk (s : CaptureState) (c : Chunk) : CaptureState :=
  if s.isRecording then { s with frames := s.frames ++ [c] } else s

/-- Embedding of `finish` from `useAudioCapture`.  When not recording it
returns `null` with no effect.  When the audio context ref is absent it
runs `stop` and returns `null`.  Otherwise it releases the processor and
media stream, concatenates the buffered chunks in arrival order into one
waveform (`result.set(frame, offset)` over increasing offsets), applies
`computeVoicePrint` to it, closes the context and leaves recording state.
The source never clears `framesRef` here. -/
def finish (s : CaptureState) : CaptureState × FinishResult :=
  if ¬ s.isRecording then (s, .nullNotRecording)
  else if ¬ s.audioContext then (stop s, .nullNoContext)
  else
    ({ s with
         processor := false
         mediaStream := false
         audioContext := false
         isRecording := false },
     .finished s.frames.flatten)

/-- Events a caller can drive the hook with. -/
inductive Event where
  | start (granted : Bool)
  | push (c : Chunk)
  | finish
  | stop
deriving DecidableEq, Repr

/-- One event step.  The optional output is the waveform that a
successful `finish` assembled and handed to `computeVoicePrint`; all
other steps (and null finishes) produce no waveform. -/
def step (s : CaptureState) (e : Event) : CaptureState × Option (List Sample) :=
  match e with
  | .start g => ((start s g).1, none)
  | .push c => (pushChunk s c, none)
  | .finish =>
      match finish s with
      | (s', .finished w) => (s', some w)
      | (s', _) => (s', none)
  | .stop => (stop s, none)

/-- Run a sequence of events and collect, per event, the waveform (if
any) that was assembled and fed to `computeVoicePrint` at that step. -/
def runOutputs (s : CaptureState) : List Event → List (Option (List Sample))
  | [] => []
  | e :: es => (step s e).2 :: runOutputs (step s e).1 es

/-- Byte offset at which chunk `j` begins inside the assembled waveform:
the total length of the chunks before it. -/
def chunkOffset (frames : List Chunk) (j : ℕ) : ℕ :=
  ((frames.take j).map List.length).sum

/-- The waveform `w` is the order-preserving concatenation of `frames`:
its length is the sum of the chunk lengths and sample `i` of chunk `j`
sits at offset `chunkOffset frames j + i`. -/
def assembledInOrder (frames : List Chunk) (w : List Sample) : Prop :=
  w.length = (frames.map List.length).sum ∧
  ∀ j i ck, frames[j]? = some ck → i < ck.length →
    w[chunkOffset frames j + i]? = ck[i]?

/-- Dot product of two numeric vectors, pairwise over the common
initial segment. -/
def dotQ (a b : List ℚ) : ℚ := (List.zipWith (fun x y => x * y) a b).sum

/-- Modelled from the spec: `src/lib/audio/voiceprint.ts` and
`src/lib/voice.ts` are not among the sources, so the similarity metric is
taken from §4.4 of the specification: cosine similarity between the two
vectors.  Vector components are JSON numbers, modelled exactly as
rationals; the similarity itself is a real number. -/
noncomputable def cosineSimilarity (a b : List ℚ) : ℝ :=
  (dotQ a b : ℝ) / (Real.sqrt (dotQ a a : ℝ) * Real.sqrt (dotQ b b : ℝ))

/-- Clamp a similarity value into `[-1, 1]` to absorb floating-point
drift (spec §4.4). -/
noncomputable def clampUnit (x : ℝ) : ℝ := max (-1) (min 1 x)

/-- Modelled from the spec: the default verification threshold is the
pipeline constant given as the spec's example value, `0.85` (§4.4, §6);
the defining source (`src/lib/voice.ts`) is not among the sources. -/
def defaultThreshold : ℚ := 85 / 100

/-- A stored voice profile: the enrolled feature vector plus the model
version tag (spec §3; Prisma `voiceProfile` rows carry both). -/
structure VoiceProfile where
  vector : List ℚ
  modelVersion : String
deriving DecidableEq, Repr

/-- Result of one verification: similarity score, the threshold that was
used, and the accept/reject decision (spec §3, `VerificationResult`). -/
structure VerificationResult where
  similarity : ℝ
  threshold : ℚ
  verified : Bool

/-- Typed failure of a verification call. -/
inductive VerifyError where
  | vectorDimensionMismatch (candidateLen storedLen : ℕ)
deriving DecidableEq, Repr

/-- Modelled from the spec: `verifyVoiceProfile` lives in
`src/lib/voice.ts`, which is not among the sources; this follows §4.4
word for word.  Mismatched vector lengths fail with
`VectorDimensionMismatchError` before any score is computed; otherwise
the result carries the clamped cosine similarity, the threshold used
(the caller's, or the default when none is supplied), and the decision
`verified = similarity >= threshold`. -/
noncomputable def verifyVoiceProfile (candidate : List ℚ) (stored : VoiceProfile)
    (threshold : Option ℚ) : Except VerifyError VerificationResult :=
  if candidate.length = stored.vector.length then
    let t := threshold.getD defaultThreshold
    let sim := clampUnit (cosineSimilarity candidate stored.vector)
    .ok { similarity := sim
          threshold := t
          verified := @decide (sim ≥ (t : ℝ)) (Classical.propDecidable _) }
  else
    .error (.vectorDimensionMismatch candidate.length stored.vector.length)

/-- Raw JSON body of `POST /api/voice/register` before zod parsing, as
constrained by the zod schema in
`src/web/src/app/api/voice/register/route.ts`: `contactId` a string,
`vector` any array of numbers (no length constraint), `recordingUrl` an
optional string, `modelVersion` an optional string with default. -/
structure RegisterBody where
  contactId : String
  vector : List ℚ
  recordingUrl : Option String
  modelVersion : Option String
deriving DecidableEq, Repr

/-- Zod default applied by the register schema: an absent `modelVersion`
parses to the tag `mfcc-v1`. -/
def parsedModelVersion (body : RegisterBody) : String :=
  body.modelVersion.getD "mfcc-v1"

/-- Persistent state visible to the register route: the set of known
contact ids and the voice profile stored per contact (at most one per
contact; spec §3, §4.3). -/
structure Db where
  contacts : List String
  profiles : List (String × VoiceProfile)
deriving DecidableEq, Repr

/-- Look up the current profile of a contact. -/
def Db.load (db : Db) (contactId : String) : Option VoiceProfile :=
  (db.profiles.find? (fun p => p.1 = contactId)).map (fun p => p.2)

/-- Modelled from the spec: `storeVoiceProfile` lives in
`src/lib/voice.ts`, which is not among the sources; per §4.3 a save
replaces any existing profile for the identity and returns the stored
profile. -/
def storeVoiceProfile (db : Db) (body : RegisterBody) : Db × VoiceProfile :=
  let profile : VoiceProfile :=
    { vector := body.vector, modelVersion := parsedModelVersion body }
  ({ db with
      profiles :=
        (body.contactId, profile) ::
          db.profiles.filter (fun p => ¬ p.1 = body.contactId) },
   profile)

/-- HTTP response of the register route, restricted to the outcomes the
source can produce after a schema-valid body. -/
inductive RegisterResponse where
  | ok (profile : VoiceProfile)
  | notFound (msg : String)
deriving DecidableEq, Repr

/-- Embedding of `POST` in
`src/web/src/app/api/voice/register/route.ts` after schema validation:
look up the contact; respond 404 `Contact not found` when it is unknown,
otherwise store the profile and respond with it. -/
def registerPOST (db : Db) (body : RegisterBody) : Db × RegisterResponse :=
  if db.contacts.contains body.contactId then
    let (db', profile) := storeVoiceProfile db body
    (db', .ok profile)
  else
    (db, .notFound "Contact not found")

/-- A concrete mid-recording state with two buffered chunks, used to
instantiate the capture-session theorems. -/
def demoRecording : CaptureState :=
  { mediaStream := true
    processor := true
    audioContext := true
    isRecording := true
    frames := [[Sample.val 1, Sample.val 2], [Sample.val 3]] }

/-- A concrete recording state into which no chunk has been pushed yet. -/
def emptyRecording : CaptureState :=
  { mediaStream := true
    processor := true
    audioContext := true
    isRecording := true
    frames := [] }

/-- A concrete stored profile with a one-component vector. -/
def demoProfile : VoiceProfile :=
  { vector := [1], modelVersion := "mfcc-v1" }

/-- A concrete database: one known contact `c1` that already has a
two-component profile under an older model tag. -/
def demoDb : Db :=
  { contacts := ["c1"]
    profiles := [("c1", { vector := [1, 2], modelVersion := "legacy-v0" })] }

/-- A schema-valid register body naming a contact that does not exist. -/
def unknownBody : RegisterBody :=
  { contactId := "c2"
    vector := [1]
    recordingUrl := none
    modelVersion := some "mfcc-v1" }

/-- A schema-valid register body for the known contact carrying the
empty vector and no model version. -/
def emptyVectorBody : RegisterBody :=
  { contactId := "c1"
    vector := []
    recordingUrl := none
    modelVersion := none }


/-- The offset of the first chunk is zero. -/
lemma chunkOffset_zero (frames : List Chunk) : chunkOffset frames 0 = 0 := rfl

/-- Peeling one chunk shifts every later offset by its length. -/
lemma chunkOffset_cons (c0 : Chunk) (fs : List Chunk) (j : ℕ) :
    chunkOffset (c0 :: fs) (j + 1) = c0.length + chunkOffset fs j := by
  simp [chunkOffset]

/-- Sample `i` of chunk `j` sits at offset `chunkOffset frames j + i`
inside the flattened buffer. -/
lemma flatten_index (frames : List Chunk) :
    ∀ j i ck, frames[j]? = some ck → i < ck.length →
      frames.flatten[chunkOffset frames j + i]? = ck[i]? := by
  induction frames with
  | nil =>
    intro j i ck hj _
    simp at hj
  | cons c0 fs ih =>
    intro j i ck hj hi
    cases j with
    | zero =>
      rw [List.getElem?_cons_zero] at hj
      injection hj with hj
      subst hj
      rw [List.flatten_cons, chunkOffset_zero, Nat.zero_add,
        List.getElem?_append, if_pos hi]
    | succ j =>
      rw [List.getElem?_cons_succ] at hj
      rw [List.flatten_cons, chunkOffset_cons, List.getElem?_append,
        if_neg (by omega)]
      have hsub : c0.length + chunkOffset fs j + i - c0.length =
          chunkOffset fs j + i := by omega
      rw [hsub]
      exact ih j i ck hj hi

/-- Flattening a chunk list is an order-preserving concatenation. -/
lemma flatten_assembled (frames : List Chunk) :
    assembledInOrder frames frames.flatten :=
  ⟨List.length_flatten frames, flatten_index frames⟩

/-- From any two non-recording controller states, the same events
produce the same waveform outputs: a non-recording state's buffer and
device flags can never influence later extraction. -/
lemma runOutputs_stopped_eq :
    ∀ (evs : List Event) (s t : CaptureState),
      s.isRecording = false → t.isRecording = false →
      runOutputs s evs = runOutputs t evs := by
  intro evs
  induction evs with
  | nil =>
    intro s t _ _
    rfl
  | cons e es ih =>
    intro s t hs ht
    cases e with
    | start g =>
      cases g with
      | true => simp [runOutputs, step, start, hs, ht]
      | false =>
        simp only [runOutputs, step, start, hs]
        simp only [ht]
        simp only [Bool.false_eq_true, if_false]
        exact congrArg _ (ih s t hs ht)
    | push c =>
      simp only [runOutputs, step, pushChunk, hs, ht]
      simp only [Bool.false_eq_true, if_false]
      exact congrArg _ (ih s t hs ht)
    | finish =>
      simp only [runOutputs, step, finish, hs, ht]
      simp only [Bool.false_eq_true, not_false_iff, if_true]
      exact congrArg _ (ih s t hs ht)
    | stop =>
      simp only [runOutputs, step]
      exact congrArg _ (ih (stop s) (stop t) rfl rfl)

/-- C3 counterexample: in a concrete mid-recording state, `start()` is a
silent no-op (no error of any kind) and, from the idle initial state,
`finish()` returns `null` (no error of any kind); the claim that these
calls fail with `AlreadyRecordingError` / `NoActiveSessionError` is
false of the code. -/
theorem start_finish_silent_counterexample :
    demoRecording.isRecording = true ∧
    (start demoRecording true).2 = .ignoredAlreadyRecording ∧
    StartResult.isError (start demoRecording true).2 = false ∧
    (start demoRecording true).1 = demoRecording ∧
    initCapture.isRecording = false ∧
    (finish initCapture).2 = .nullNotRecording ∧
    FinishResult.isError (finish initCapture).2 = false ∧
    (finish initCapture).1 = initCapture := by
  decide

/-- C3 (amended): `start()` while recording returns immediately with no
error, leaving the state and the chunk buffer unchanged; `finish()`
while idle returns `null` with no error, leaving the state and the
chunk buffer unchanged. -/
theorem start_in_recording_finish_in_idle_noop :
    (∀ (s : CaptureState) (granted : Bool), s.isRecording = true →
      start s granted = (s, .ignoredAlreadyRecording) ∧
      StartResult.isError .ignoredAlreadyRecording = false) ∧
    (∀ s : CaptureState, s.isRecording = false →
      finish s = (s, .nullNotRecording) ∧
      FinishResult.isError .nullNotRecording = false) := by
  constructor
  · intro s granted hs
    exact ⟨by simp [start, hs], rfl⟩
  · intro s hs
    exact ⟨by simp [finish, hs], rfl⟩

/-- C3 witness: the amended no-op behaviour at the concrete recording
and idle states. -/
theorem start_in_recording_finish_in_idle_noop_witness :
    demoRecording.isRecording = true ∧ initCapture.isRecording = false ∧
    (start demoRecording false = (demoRecording, .ignoredAlreadyRecording) ∧
      StartResult.isError .ignoredAlreadyRecording = false) ∧
    (finish initCapture = (initCapture, .nullNotRecording) ∧
      FinishResult.isError .nullNotRecording = false) :=
  ⟨rfl, rfl, start_in_recording_finish_in_idle_noop.1 demoRecording false rfl,
    start_in_recording_finish_in_idle_noop.2 initCapture rfl⟩

/-- C4: while recording (with the audio context held), `finish()`
assembles exactly the concatenation of the buffered chunks in arrival
order: the waveform's length is the sum of the chunk lengths and sample
`i` of chunk `j` sits at offset `chunkOffset frames j + i`; no sample is
reordered or dropped. -/
theorem finish_returns_ordered_concatenation (s : CaptureState)
    (hrec : s.isRecording = true) (hctx : s.audioContext = true) :
    (finish s).2 = .finished s.frames.flatten ∧
    assembledInOrder s.frames s.frames.flatten := by
  refine ⟨?_, flatten_assembled s.frames⟩
  simp [finish, hrec, hctx]

/-- C4 witness: the ordered-concatenation property at a concrete
two-chunk recording state. -/
theorem finish_returns_ordered_concatenation_witness :
    demoRecording.isRecording = true ∧ demoRecording.audioContext = true ∧
    ((finish demoRecording).2 = .finished demoRecording.frames.flatten ∧
      assembledInOrder demoRecording.frames demoRecording.frames.flatten) :=
  ⟨rfl, rfl, finish_returns_ordered_concatenation demoRecording rfl rfl⟩

/-- C5 counterexample: a chunk consisting of the non-finite sample NaN,
delivered in a concrete recording state, is appended to the buffer
unchanged rather than rejected: no `InvalidSampleError` exists in the
code and the chunk is not dropped. -/
theorem nonfinite_chunk_not_dropped :
    Sample.isFinite Sample.nan = false ∧
    demoRecording.isRecording = true ∧
    pushChunk demoRecording [Sample.nan] =
      { demoRecording with frames := demoRecording.frames ++ [[Sample.nan]] } ∧
    (pushChunk demoRecording [Sample.nan]).frames ≠ demoRecording.frames := by
  decide

/-- C5 (amended): every chunk delivered while recording — finite or not
— is appended to the buffer unchanged, in arrival order, with the
previously buffered chunks retained and the session still recording; the
code performs no finiteness validation and raises no error. -/
theorem pushChunk_appends_any_chunk (s : CaptureState) (ck : Chunk)
    (hrec : s.isRecording = true) :
    pushChunk s ck = { s with frames := s.frames ++ [ck] } ∧
    (pushChunk s ck).isRecording = true := by
  constructor
  · simp [pushChunk, hrec]
  · simp [pushChunk, hrec]

/-- C5 witness: the append-unchanged behaviour at the concrete recording
state, with a chunk containing the non-finite sample +Infinity. -/
theorem pushChunk_appends_any_chunk_witness :
    demoRecording.isRecording = true ∧
    (pushChunk demoRecording [Sample.inf false] =
      { demoRecording with
          frames := demoRecording.frames ++ [[Sample.inf false]] } ∧
      (pushChunk demoRecording [Sample.inf false]).isRecording = true) :=
  ⟨rfl, pushChunk_appends_any_chunk demoRecording [Sample.inf false] rfl⟩

/-- C6: calling `finish()` on a recording session with zero buffered
chunks succeeds — it yields the zero-length waveform, is not an error,
and returns the controller to idle. -/
theorem finish_zero_chunks (s : CaptureState) (hrec : s.isRecording = true)
    (hctx : s.audioContext = true) (hempty : s.frames = []) :
    (finish s).2 = .finished [] ∧
    FinishResult.isError (finish s).2 = false ∧
    (finish s).1.isRecording = false := by
  have h2 : (finish s).2 = .finished ([] : List Sample) := by
    simp [finish, hrec, hctx, hempty]
  refine ⟨h2, ?_, ?_⟩
  · rw [h2]
    rfl
  · simp [finish, hrec, hctx]

/-- C6 witness: the zero-chunk `finish()` at the concrete empty
recording state. -/
theorem finish_zero_chunks_witness :
    emptyRecording.isRecording = true ∧ emptyRecording.audioContext = true ∧
    emptyRecording.frames = [] ∧
    ((finish emptyRecording).2 = .finished [] ∧
      FinishResult.isError (finish emptyRecording).2 = false ∧
      (finish emptyRecording).1.isRecording = false) :=
  ⟨rfl, rfl, rfl, finish_zero_chunks emptyRecording rfl rfl rfl⟩

/-- C7 counterexample: `stop()` does not clear the chunk buffer — in a
concrete recording state with a non-empty buffer, the buffer after
`stop()` is exactly the buffer before it, so the chunks are not
literally discarded at stop time. -/
theorem stop_keeps_buffer_counterexample :
    (stop demoRecording).frames = demoRecording.frames ∧
    demoRecording.frames ≠ [] := by
  decide

/-- C7 (amended): `stop()` releases the capture device (processor
disconnected, media tracks stopped, audio context closed) and ends the
recording; the buffered chunks are left in place but are inert — the
controller behaves exactly like a fresh idle controller from then on, so
every waveform ever handed to `computeVoicePrint` afterwards is built
purely from chunks of later sessions and no feature vector is ever
computed from the abandoned session's audio. -/
theorem stop_releases_device_abandoned_audio_inert (s : CaptureState)
    (evs : List Event) :
    (stop s).processor = false ∧ (stop s).mediaStream = false ∧
    (stop s).audioContext = false ∧ (stop s).isRecording = false ∧
    runOutputs (stop s) evs = runOutputs initCapture evs :=
  ⟨rfl, rfl, rfl, rfl, runOutputs_stopped_eq evs (stop s) initCapture rfl rfl⟩

/-- C1: for equal-length vectors, verification returns a result whose
similarity is the cosine similarity of the two vectors clamped to
`[-1, 1]`, whose `verified` field equals `similarity >= threshold`, and
whose `threshold` field echoes the threshold used — the caller's, or the
default `0.85` when none is supplied. -/
theorem verify_result_spec (candidate : List ℚ) (p : VoiceProfile)
    (t : Option ℚ) (h : candidate.length = p.vector.length) :
    ∃ r : VerificationResult,
      verifyVoiceProfile candidate p t = .ok r ∧
      r.similarity = clampUnit (cosineSimilarity candidate p.vector) ∧
      (-1 : ℝ) ≤ r.similarity ∧ r.similarity ≤ 1 ∧
      (r.verified = true ↔ r.similarity ≥ (r.threshold : ℝ)) ∧
      r.threshold = t.getD defaultThreshold ∧
      defaultThreshold = 85 / 100 := by
  have hok : verifyVoiceProfile candidate p t =
      .ok { similarity := clampUnit (cosineSimilarity candidate p.vector)
            threshold := t.getD defaultThreshold
            verified := @decide
              (clampUnit (cosineSimilarity candidate p.vector) ≥
                ((t.getD defaultThreshold : ℚ) : ℝ))
              (Classical.propDecidable _) } := by
    unfold verifyVoiceProfile
    rw [if_pos h]
  refine ⟨_, hok, rfl, le_max_left _ _,
    max_le (by norm_num) (min_le_left _ _), ?_, rfl, rfl⟩
  constructor
  · intro hv
    exact of_decide_eq_true hv
  · intro hp
    exact decide_eq_true hp

/-- C1 witness: verification of the one-component vector `[1]` against
the stored profile `[1]` at the default threshold. -/
theorem verify_result_spec_witness :
    [(1 : ℚ)].length = demoProfile.vector.length ∧
    (∃ r : VerificationResult,
      verifyVoiceProfile [(1 : ℚ)] demoProfile none = .ok r ∧
      r.similarity = clampUnit (cosineSimilarity [(1 : ℚ)] demoProfile.vector) ∧
      (-1 : ℝ) ≤ r.similarity ∧ r.similarity ≤ 1 ∧
      (r.verified = true ↔ r.similarity ≥ (r.threshold : ℝ)) ∧
      r.threshold = defaultThreshold ∧
      defaultThreshold = 85 / 100) :=
  ⟨rfl, verify_result_spec [(1 : ℚ)] demoProfile none rfl⟩

/-- C2: verifying a candidate vector against a stored profile of a
different length always fails with the dimension-mismatch error carrying
both lengths, and never returns a result (hence no similarity score is
computed, and neither vector is truncated or padded). -/
theorem verify_dimension_mismatch (candidate : List ℚ) (p : VoiceProfile)
    (t : Option ℚ) (h : ¬ candidate.length = p.vector.length) :
    verifyVoiceProfile candidate p t =
      .error (.vectorDimensionMismatch candidate.length p.vector.length) ∧
    ∀ r : VerificationResult, verifyVoiceProfile candidate p t ≠ .ok r := by
  have herr : verifyVoiceProfile candidate p t =
      .error (.vectorDimensionMismatch candidate.length p.vector.length) := by
    unfold verifyVoiceProfile
    rw [if_neg h]
  refine ⟨herr, ?_⟩
  intro r hr
  rw [herr] at hr
  exact Except.noConfusion hr

/-- C2 witness: a two-component candidate against the one-component
stored profile. -/
theorem verify_dimension_mismatch_witness :
    ¬ [(1 : ℚ), 0].length = demoProfile.vector.length ∧
    (verifyVoiceProfile [(1 : ℚ), 0] demoProfile none =
      .error (.vectorDimensionMismatch [(1 : ℚ), 0].length
        demoProfile.vector.length) ∧
      ∀ r : VerificationResult,
        verifyVoiceProfile [(1 : ℚ), 0] demoProfile none ≠ .ok r) :=
  ⟨by decide, verify_dimension_mismatch [(1 : ℚ), 0] demoProfile none (by decide)⟩

/-- Storing a profile makes it the one `load` returns for the identity:
the save fully replaces any earlier profile. -/
lemma load_store (db : Db) (body : RegisterBody) :
    (storeVoiceProfile db body).1.load body.contactId =
      some (storeVoiceProfile db body).2 := by
  simp [storeVoiceProfile, Db.load, List.find?]

/-- C9: a register request naming an unknown contact is answered 404
`Contact not found` with the database untouched (no profile stored); a
request naming a known contact stores the profile and answers with it,
and the stored profile is what `load` then returns for the contact. -/
theorem register_requires_known_contact (db : Db) (body : RegisterBody) :
    (db.contacts.contains body.contactId = false →
      registerPOST db body = (db, .notFound "Contact not found")) ∧
    (db.contacts.contains body.contactId = true →
      (registerPOST db body).2 = .ok (storeVoiceProfile db body).2 ∧
      (registerPOST db body).1.load body.contactId =
        some (storeVoiceProfile db body).2) := by
  constructor
  · intro h
    have hm : body.contactId ∉ db.contacts := by simpa using h
    simp [registerPOST, hm]
  · intro h
    have hm : body.contactId ∈ db.contacts := by simpa using h
    refine ⟨by simp [registerPOST, hm], ?_⟩
    have h1 : (registerPOST db body).1 = (storeVoiceProfile db body).1 := by
      simp [registerPOST, hm]
    rw [h1]
    exact load_store db body

/-- C9 witness: the 404 branch for the unknown contact `c2` and the
success branch for the known contact `c1` of the concrete database. -/
theorem register_requires_known_contact_witness :
    demoDb.contacts.contains unknownBody.contactId = false ∧
    demoDb.contacts.contains emptyVectorBody.contactId = true ∧
    registerPOST demoDb unknownBody = (demoDb, .notFound "Contact not found") ∧
    ((registerPOST demoDb emptyVectorBody).2 =
        .ok (storeVoiceProfile demoDb emptyVectorBody).2 ∧
      (registerPOST demoDb emptyVectorBody).1.load emptyVectorBody.contactId =
        some (storeVoiceProfile demoDb emptyVectorBody).2) :=
  ⟨by decide, by decide,
    (register_requires_known_contact demoDb unknownBody).1 (by decide),
    (register_requires_known_contact demoDb emptyVectorBody).2 (by decide)⟩

/-- C10: the register endpoint checks nothing about the vector or the
model version: for any database state (whatever profile the contact
already has, of whatever length or version) and any body naming a known
contact — the vector being any list of numbers, including the empty
list — the profile is stored exactly as sent, with the zod default tag
`mfcc-v1` when `modelVersion` is omitted. -/
theorem register_accepts_any_vector (db : Db) (body : RegisterBody)
    (hknown : db.contacts.contains body.contactId = true) :
    (registerPOST db body).2 =
      .ok { vector := body.vector
            modelVersion := body.modelVersion.getD "mfcc-v1" } ∧
    (registerPOST db body).1.load body.contactId =
      some { vector := body.vector
             modelVersion := body.modelVersion.getD "mfcc-v1" } := by
  have hprof : (storeVoiceProfile db body).2 =
      { vector := body.vector
        modelVersion := body.modelVersion.getD "mfcc-v1" } := rfl
  have hm : body.contactId ∈ db.contacts := by simpa using hknown
  constructor
  · rw [← hprof]
    simp [registerPOST, hm]
  · rw [← hprof]
    have h1 : (registerPOST db body).1 = (storeVoiceProfile db body).1 := by
      simp [registerPOST, hm]
    rw [h1]
    exact load_store db body

/-- C10 witness: the known contact `c1` already holds a two-component
profile under the tag `legacy-v0`; registering the empty vector with no
model version nevertheless succeeds and stores `⟨[], mfcc-v1⟩`. -/
theorem register_accepts_any_vector_witness :
    demoDb.contacts.contains emptyVectorBody.contactId = true ∧
    demoDb.load "c1" =
      some { vector := [1, 2], modelVersion := "legacy-v0" } ∧
    ((registerPOST demoDb emptyVectorBody).2 =
        .ok { vector := [], modelVersion := "mfcc-v1" } ∧
      (registerPOST demoDb emptyVectorBody).1.load emptyVectorBody.contactId =
        some { vector := [], modelVersion := "mfcc-v1" }) :=
  ⟨by decide, by decide,
    register_accepts_any_vector demoDb emptyVectorBody (by decide)⟩
